import Mathlib

/-!
Shallow embedding of the `whereismydraw` RenderDoc extension's diagnostic
engine (`analyse.py`), together with theorems settling the specification
claims about it.

Modelling conventions:
- Python floats that the engine only ever compares and min/max-reduces
  (viewport depth range, depth bounds, vertex NDC z, shader output alpha)
  are modelled as rationals (`ℚ`); a value that may be NaN/infinite is an
  `Option ℚ` with `none` for the non-finite case (`math.isfinite` filter).
- `rd.ResourceId` is a `Nat`, `0` standing for `rd.ResourceId.Null()`.
- The human-readable message strings built by `str.format` are modelled by
  the inductive `Msg`: one constructor per distinct format template in the
  source, carrying the format arguments that the template interpolates.
- Control flow by `raise AnalysisFinished` / plain `return` / an escaping
  Python exception is made explicit by `Outcome`: `.finished` for the
  sentinel, `.proceed` for falling through to the next phase, `.error` for
  any other escaping exception, each carrying `self.analysis_steps`.
- The per-API state dispatch (reading the GL/Vulkan/D3D11/D3D12 pipeline
  structures) is elided: each checker takes the API-agnostic record of the
  values that the dispatch extracts.
-/

/-! ## Basic enumerations mirroring `renderdoc`/`qrenderdoc` types -/

/-- `rd.CompareFunction`. -/
inductive CompareFunction where
  | Never
  | AlwaysTrue
  | Less
  | LessEqual
  | Greater
  | GreaterEqual
  | Equal
  | NotEqual
deriving DecidableEq

/-- `rd.CullMode`. -/
inductive CullMode where
  | NoCull
  | Front
  | Back
  | FrontAndBack
deriving DecidableEq

/-- `qrd.PipelineStage` (the tags used by `analyse.py`). -/
inductive PipelineStage where
  | ComputeShader
  | SampleMask
  | Rasterizer
  | Blending
  | ViewportsScissors
  | DepthTest
  | StencilTest
  | VertexInput
  | VertexShader
deriving DecidableEq

/-- `rd.MeshDataStage` (the tags used by `analyse.py`). -/
inductive MeshDataStage where
  | VSIn
  | VSOut
  | GSOut
  | Count
deriving DecidableEq

/-- `rd.DebugOverlay` modes used by the engine. -/
inductive DebugOverlay where
  | NoOverlay
  | Drawcall
  | Depth
  | Stencil
  | BackfaceCull
  | ViewportScissor
  | ClearBeforeDraw
deriving DecidableEq

/-- The Python exceptions the embedded code can raise besides the
`AnalysisFinished` sentinel.  `nonTermination` marks the one loop
(`check_invalid_verts`, vertex chunking with a zero byte stride) that would
not terminate. -/
inductive PyErr where
  | valueError
  | typeError
  | nameError
  | indexError
  | nonTermination
deriving DecidableEq

/-- `rd.ResourceUsage` values relevant to `check_invalid_verts`. -/
inductive ResourceUsage where
  | VS_RWResource
  | HS_RWResource
  | DS_RWResource
  | GS_RWResource
  | PS_RWResource
  | CS_RWResource
  | All_RWResource
  | Copy
  | StreamOut
  | CopyDst
  | Discard
  | CPUWrite
  | Clear
  | Other
deriving DecidableEq

/-- `rd.ResourceId`; `0` models `rd.ResourceId.Null()`. -/
abbrev ResourceId := Nat

/-- `rd.ResourceId.Null()` / default-constructed `rd.ResourceId()`. -/
def ResourceId.null : ResourceId := 0

/-- One per-face stencil state (`rd.StencilFace`): compare function,
reference value and compare mask.  The numeric fields are Python ints. -/
structure StencilFace where
  function : CompareFunction
  reference : Int
  compareMask : Int
deriving DecidableEq

/-- The `test=` keyword argument passed to `msg.format` inside
`check_failed_stencil.check_faces`, together with the advisory sentence the
source appends in the one-sided cases. -/
inductive FaceAttr where
  | test
  | backFaceTest
  | frontFaceTest
deriving DecidableEq

/-- Which of the seven `check_faces` calls in `check_failed_stencil` fired
(each call has its own format template in the source). -/
inductive StencilCheckKind where
  | neverCompare
  | lessGreaterBoundary
  | lessEqGreaterEqBoundary
  | equalCompareMask
  | greaterCompareMask
  | greaterEqualCompareMask
  | notEqualUnusual
deriving DecidableEq

/-! ## Messages

One constructor per distinct message template in `analyse.py`, with the
interpolated data as arguments.  `depthTestStageDisabled` is shared by
`check_failed_depth` and `check_failed_stencil`, whose disabled-stage
branches use the same literal text. -/

inductive Msg where
  | depthOverlayRed
  | depthFuncNever
  | vertexNdcZBounds (lo hi : ℚ)
  | allVertsNearClipped (d3d : Bool)
  | someVertsPassNearPlane
  | allVertsFarClipped (d3d : Bool)
  | someVertsPassFarPlane
  | depthClampIgnoresPlanes (d3d : Bool)
  | depthTestStageDisabled
  | viewportDepthOutsideDepthBounds (vmin vmax blo bhi : ℚ)
  | viewportDepthWithinDepthBounds (vmin vmax blo bhi : ℚ)
  | allVertsOutsideDepthBounds (blo bhi : ℚ)
  | someVertsWithinDepthBounds (vmin vmax blo bhi : ℚ)
  | depthFuncNotEqualUnusual
  | viewportDepthRangeUnusual (vmin vmax : ℚ)
  | viewportDepthRangeNormal (vmin vmax : ℚ)
  | stencilOverlayRed
  | stencilCheckFired (kind : StencilCheckKind) (attr : FaceAttr) (face : StencilFace)
  | noVertexShader
  | noValidIndexBuffer
  | indexBufferOutOfBounds (numIndices byteStride : Nat) (rid : ResourceId) (needed avail : Nat)
  | attrNoBufferBound (name : String) (slot : Nat)
  | perInstanceAttrOutOfBounds (name : String) (slot : Nat)
  | perVertexAttrOutOfBounds (name : String) (slot : Nat)
  | allZeroMatrix (vname cbname : String)
  | posAttrPerInstance (name : String)
  | posAttrAllZero (name : String) (lastMod : Option (Nat × ResourceUsage))
  | posAttrAllIdentical (name : String) (lastMod : Option (Nat × ResourceUsage))
  | noProblemsFound
  | pixelHistoryAlphaZero
  | pixelHistoryPassed (x y : Nat)
  | pixelHistoryDiscards (attempts count : Nat)
  | pixelHistoryNoDiscards
  | pixelHistoryUnsupported
deriving DecidableEq

/-! ## Result model (`ResultStep`, `PixelHistoryData`) -/

/-- `rd.TextureDisplay`, restricted to the fields the claims observe.  A
default-constructed `rd.TextureDisplay()` has a null `resourceId`. -/
structure TextureDisplay where
  resourceId : ResourceId
  overlay : DebugOverlay
  mip : Nat
  slice : Nat
  sample : Nat
deriving DecidableEq

/-- Default-constructed `rd.TextureDisplay()`. -/
def TextureDisplay.default : TextureDisplay :=
  { resourceId := ResourceId.null, overlay := DebugOverlay.NoOverlay,
    mip := 0, slice := 0, sample := 0 }

/-- One `rd.PixelModification` record, restricted to the fields the embedded
code reads (`eventId`, `Passed()`, `shaderDiscarded`,
`shaderOut.col.floatValue[3]`). -/
structure PixelMod where
  eventId : Nat
  passed : Bool
  shaderDiscarded : Bool
  shaderOutAlpha : ℚ
deriving DecidableEq

/-- `PixelHistoryData` from `analyse.py`. -/
structure PixelHistoryData where
  x : Nat
  y : Nat
  id : ResourceId
  tex_display : TextureDisplay
  history : List PixelMod
  last_eid : Nat
deriving DecidableEq

/-- Default-constructed `PixelHistoryData()` (its `__init__`). -/
def PixelHistoryData.default : PixelHistoryData :=
  { x := 0, y := 0, id := ResourceId.null, tex_display := TextureDisplay.default,
    history := [], last_eid := 0 }

/-- `ResultStep` from `analyse.py`.  The constructor's value-copy behaviour
for `tex_display` (and the absence of a copy for `pixel_history`) is
modelled separately in the heap model below; here steps are plain values,
which is what appending to `self.analysis_steps` observes. -/
structure ResultStep where
  msg : Msg
  tex_display : TextureDisplay
  pixel_history : PixelHistoryData
  pipe_stage : PipelineStage
  mesh_view : MeshDataStage
deriving DecidableEq

/-- `ResultStep(msg=m)` with every other argument left at its default. -/
def ResultStep.msgOnly (m : Msg) : ResultStep :=
  { msg := m, tex_display := TextureDisplay.default,
    pixel_history := PixelHistoryData.default,
    pipe_stage := PipelineStage.ComputeShader, mesh_view := MeshDataStage.Count }

/-- `ResultStep(msg=m, tex_display=td)`. -/
def ResultStep.withTex (m : Msg) (td : TextureDisplay) : ResultStep :=
  { ResultStep.msgOnly m with tex_display := td }

/-- `ResultStep(msg=m, pipe_stage=ps)`. -/
def ResultStep.withPipe (m : Msg) (ps : PipelineStage) : ResultStep :=
  { ResultStep.msgOnly m with pipe_stage := ps }

/-- `ResultStep(msg=m, mesh_view=mv)`. -/
def ResultStep.withMesh (m : Msg) (mv : MeshDataStage) : ResultStep :=
  { ResultStep.msgOnly m with mesh_view := mv }

/-- `ResultStep(msg=m, pixel_history=ph)`. -/
def ResultStep.withHistory (m : Msg) (ph : PixelHistoryData) : ResultStep :=
  { ResultStep.msgOnly m with pixel_history := ph }

/-- `ResultStep.has_details` from `analyse.py`: true iff the texture display
names a resource, the pixel history names a target, the pipeline-stage tag
differs from the `ComputeShader` sentinel, or the mesh-view tag differs from
the `Count` sentinel. -/
def ResultStep.has_details (s : ResultStep) : Bool :=
  decide (s.tex_display.resourceId ≠ ResourceId.null) ||
  decide (s.pixel_history.id ≠ ResourceId.null) ||
  decide (s.pipe_stage ≠ PipelineStage.ComputeShader) ||
  decide (s.mesh_view ≠ MeshDataStage.Count)

/-! ## Control flow -/

/-- Result of running one phase of the analysis: `finished` models
`raise AnalysisFinished`, `proceed` models returning normally so control
falls through to the next phase, `error` models any other Python exception
escaping.  Each constructor carries `self.analysis_steps` at that moment. -/
inductive Outcome where
  | finished (steps : List ResultStep)
  | proceed (steps : List ResultStep)
  | error (e : PyErr) (steps : List ResultStep)
deriving DecidableEq

/-- Sequencing of phases: an `AnalysisFinished` or an error propagates, a
normal return runs the next phase on the accumulated steps. -/
def Outcome.then (o : Outcome) (f : List ResultStep → Outcome) : Outcome :=
  match o with
  | .proceed steps => f steps
  | x => x

/-! ## `Analysis.check_failed_depth`

The API dispatch (lines gathering `depth_func`, `ndc_bounds`,
`depth_bounds`, `depth_enabled`, `depth_clamp` from the GL/Vulkan/D3D pipe
state) is elided; `DepthState` is the record of the extracted values.
`vert_ndc_z` is the z component of each entry of `self.vert_ndc`, with
`none` for a non-finite value (the `math.isfinite` filter). -/

/-- Viewport 0, restricted to the depth range fields the depth checker
reads. -/
structure Viewport where
  minDepth : ℚ
  maxDepth : ℚ
deriving DecidableEq

/-- The API-agnostic state `check_failed_depth` operates on. -/
structure DepthState where
  viewport : Viewport
  depth_func : CompareFunction
  ndc_bounds : ℚ × ℚ
  depth_bounds : Option (ℚ × ℚ)
  depth_enabled : Bool
  depth_clamp : Bool
  isD3D : Bool
  postvs_stage : MeshDataStage
  vert_ndc_z : List (Option ℚ)

/-- Python `min` over a non-empty list, head and tail split off. -/
def pyMinQ (z : ℚ) (zs : List ℚ) : ℚ := zs.foldl min z

/-- Python `max` over a non-empty list, head and tail split off. -/
def pyMaxQ (z : ℚ) (zs : List ℚ) : ℚ := zs.foldl max z

/-- Tail of `check_failed_depth`: the Not-Equal advisory, the viewport
depth-range advisory, then the fall-through into
`check_previous_depth_stencil(depth_func)` (modelled as `.proceed`). -/
def check_failed_depth_tail (st : DepthState) (steps : List ResultStep) : Outcome :=
  let steps := if st.depth_func = CompareFunction.NotEqual then
      steps ++ [ResultStep.withPipe Msg.depthFuncNotEqualUnusual PipelineStage.DepthTest]
    else steps
  let steps := if st.viewport.minDepth ≠ 0 ∨ st.viewport.maxDepth ≠ 1 then
      steps ++ [ResultStep.withPipe
        (Msg.viewportDepthRangeUnusual st.viewport.minDepth st.viewport.maxDepth)
        PipelineStage.ViewportsScissors]
    else
      steps ++ [ResultStep.withPipe
        (Msg.viewportDepthRangeNormal st.viewport.minDepth st.viewport.maxDepth)
        PipelineStage.ViewportsScissors]
  Outcome.proceed steps

/-- Depth-enabled gate and the two depth-bounds checks of
`check_failed_depth` (viewport range vs bounds, then vertex NDC z bounds vs
bounds), in source order. -/
def check_failed_depth_bounds (st : DepthState) (vlo vhi : ℚ)
    (steps : List ResultStep) : Outcome :=
  if st.depth_enabled = false then
    Outcome.finished (steps ++
      [ResultStep.withPipe Msg.depthTestStageDisabled PipelineStage.DepthTest])
  else
    match st.depth_bounds with
    | none => check_failed_depth_tail st steps
    | some (blo, bhi) =>
      if st.viewport.minDepth > bhi ∨ st.viewport.maxDepth < blo then
        Outcome.finished (steps ++ [ResultStep.withPipe
          (Msg.viewportDepthOutsideDepthBounds st.viewport.minDepth st.viewport.maxDepth blo bhi)
          PipelineStage.ViewportsScissors])
      else
        let steps := steps ++ [ResultStep.withMesh
          (Msg.viewportDepthWithinDepthBounds st.viewport.minDepth st.viewport.maxDepth blo bhi)
          st.postvs_stage]
        if vlo > bhi ∨ vhi < blo then
          Outcome.finished (steps ++ [ResultStep.withPipe
            (Msg.allVertsOutsideDepthBounds blo bhi) PipelineStage.Rasterizer])
        else
          check_failed_depth_tail st (steps ++ [ResultStep.withMesh
            (Msg.someVertsWithinDepthBounds st.viewport.minDepth st.viewport.maxDepth blo bhi)
            st.postvs_stage])

/-- Near/far plane clip checks of `check_failed_depth` (run only when depth
clamping is disabled). -/
def check_failed_depth_clip (st : DepthState) (vlo vhi : ℚ)
    (steps : List ResultStep) : Outcome :=
  if st.depth_clamp = false then
    if vhi < st.ndc_bounds.1 then
      Outcome.finished (steps ++
        [ResultStep.withMesh (Msg.allVertsNearClipped st.isD3D) st.postvs_stage])
    else
      let steps := steps ++
        [ResultStep.withMesh Msg.someVertsPassNearPlane st.postvs_stage]
      if vlo > st.ndc_bounds.2 then
        Outcome.finished (steps ++
          [ResultStep.withMesh (Msg.allVertsFarClipped st.isD3D) st.postvs_stage])
      else
        check_failed_depth_bounds st vlo vhi (steps ++
          [ResultStep.withMesh Msg.someVertsPassFarPlane st.postvs_stage])
  else
    check_failed_depth_bounds st vlo vhi (steps ++
      [ResultStep.msgOnly (Msg.depthClampIgnoresPlanes st.isD3D)])

/-- `Analysis.check_failed_depth`.  `texd` is `self.tex_display` at entry.
The vertex z bound computation `[min(vert_ndc_z), max(vert_ndc_z)]` raises
`ValueError` when the finite-z list is empty, exactly as Python `min` does
on an empty sequence. -/
def check_failed_depth (st : DepthState) (texd : TextureDisplay)
    (steps0 : List ResultStep) : Outcome :=
  let steps := steps0 ++ [ResultStep.withTex Msg.depthOverlayRed texd]
  if st.depth_func = CompareFunction.Never then
    Outcome.finished (steps ++
      [ResultStep.withPipe Msg.depthFuncNever PipelineStage.DepthTest])
  else
    match st.vert_ndc_z.filterMap id with
    | [] => Outcome.error PyErr.valueError steps
    | z :: zs =>
      let vlo := pyMinQ z zs
      let vhi := pyMaxQ z zs
      check_failed_depth_clip st vlo vhi (steps ++
        [ResultStep.withPipe (Msg.vertexNdcZBounds vlo vhi) PipelineStage.Rasterizer])

/-! ## `Analysis.check_failed_stencil` -/

/-- The API-agnostic state `check_failed_stencil` operates on (again the
per-API field dispatch is elided). -/
structure StencilState where
  cull_mode : CullMode
  stencil_enabled : Bool
  front : StencilFace
  back : StencilFace

/-- The local `check_faces` helper of `check_failed_stencil`: evaluate a
predicate against the effective front and back faces; both matching is a
terminal conclusion attributed to plain `test`, exactly one matching is a
one-sided advisory. -/
def check_faces (kind : StencilCheckKind) (pred : StencilFace → Bool)
    (front back : StencilFace) (steps : List ResultStep) : Outcome :=
  if pred front && pred back then
    Outcome.finished (steps ++ [ResultStep.withPipe
      (Msg.stencilCheckFired kind FaceAttr.test front) PipelineStage.StencilTest])
  else if pred front then
    Outcome.proceed (steps ++ [ResultStep.withPipe
      (Msg.stencilCheckFired kind FaceAttr.backFaceTest front) PipelineStage.StencilTest])
  else if pred back then
    Outcome.proceed (steps ++ [ResultStep.withPipe
      (Msg.stencilCheckFired kind FaceAttr.frontFaceTest back) PipelineStage.StencilTest])
  else
    Outcome.proceed steps

/-- `Analysis.check_failed_stencil`: the red-overlay note, the cull-mode
face substitution, the stencil-enabled gate, the battery of seven
`check_faces` calls (the last wrapped in `try/except AnalysisFinished` in
the source), then the fall-through into
`check_previous_depth_stencil(None)` (modelled as `.proceed`).

The seventh call reproduces the source faithfully: its predicate tests
`x.function == rd.CompareFunction.Never` (not `NotEqual`). -/
def check_failed_stencil (st : StencilState) (texd : TextureDisplay)
    (steps0 : List ResultStep) : Outcome :=
  let steps := steps0 ++ [ResultStep.withTex Msg.stencilOverlayRed texd]
  let front := if st.cull_mode = CullMode.Front then st.back else st.front
  let back := if st.cull_mode = CullMode.Back then st.front else st.back
  if st.stencil_enabled = false then
    Outcome.finished (steps ++
      [ResultStep.withPipe Msg.depthTestStageDisabled PipelineStage.DepthTest])
  else
    (check_faces StencilCheckKind.neverCompare
        (fun x => decide (x.function = CompareFunction.Never)) front back steps).then
    (fun steps => (check_faces StencilCheckKind.lessGreaterBoundary
        (fun x => (decide (x.function = CompareFunction.Less) && decide (x.reference = 0)) ||
                  (decide (x.function = CompareFunction.Greater) && decide (x.reference = 255)))
        front back steps).then
    (fun steps => (check_faces StencilCheckKind.lessEqGreaterEqBoundary
        (fun x => (decide (x.function = CompareFunction.LessEqual) && decide (x.reference < 0)) ||
                  (decide (x.function = CompareFunction.GreaterEqual) && decide (x.reference > 255)))
        front back steps).then
    (fun steps => (check_faces StencilCheckKind.equalCompareMask
        (fun x => decide (x.function = CompareFunction.Equal) &&
                  decide (Int.land x.compareMask x.reference ≠ x.reference) &&
                  decide (x.reference ≠ 0))
        front back steps).then
    (fun steps => (check_faces StencilCheckKind.greaterCompareMask
        (fun x => decide (x.function = CompareFunction.Greater) &&
                  decide (x.compareMask ≤ x.reference))
        front back steps).then
    (fun steps => (check_faces StencilCheckKind.greaterEqualCompareMask
        (fun x => decide (x.function = CompareFunction.GreaterEqual) &&
                  decide (x.compareMask < x.reference))
        front back steps).then
    (fun steps =>
      match check_faces StencilCheckKind.notEqualUnusual
          (fun x => decide (x.function = CompareFunction.Never)) front back steps with
      | Outcome.finished s => Outcome.proceed s
      | Outcome.proceed s => Outcome.proceed s
      | Outcome.error e s => Outcome.error e s))))))

/-! ## Index list construction and Python `max` (`check_invalid_verts`) -/

/-- Line 883 of `analyse.py`: map restart indices to `None`, otherwise add
the draw's base vertex. -/
def mapRestart (restartEnabled : Bool) (restartIdx baseVertex : Int)
    (indices : List Int) : List (Option Int) :=
  indices.map (fun i =>
    if restartEnabled && decide (i = restartIdx) then none else some (i + baseVertex))

/-- Python `max` applied to a list that may contain `None`: `ValueError` on
an empty list; a singleton is returned without any comparison; with two or
more elements any `None` participates in an ordering comparison against an
int or another `None`, raising `TypeError`. -/
def pyMax (l : List (Option Int)) : Except PyErr (Option Int) :=
  match l with
  | [] => Except.error PyErr.valueError
  | [x] => Except.ok x
  | x :: y :: rest =>
    match x, (y :: rest).all Option.isSome with
    | some a, true => Except.ok (some (((y :: rest).filterMap id).foldl max a))
    | _, _ => Except.error PyErr.typeError

/-! ## `Analysis.check_invalid_verts`

The replay-layer queries (`GetBufferData`, `GetUsage`,
`GetCBufferVariableContents`) become functions of the environment record
`VertEnv`; everything computed from their results follows the source. -/

/-- The constant `0xFFFFFFFFFFFFFFFF` marking an unbounded buffer
binding. -/
def UNBOUNDED : Nat := 0xFFFFFFFFFFFFFFFF

/-- A bound index or vertex buffer (`rd.BoundVBuffer` / `pipe.GetIBuffer`
result). -/
structure BoundBuffer where
  resourceId : ResourceId
  byteOffset : Nat
  byteSize : Nat
  byteStride : Nat
deriving DecidableEq, Inhabited

/-- `rd.BufferDescription`, restricted to the fields used. -/
structure BufferDescription where
  resourceId : ResourceId
  length : Nat
deriving DecidableEq

/-- One vertex input attribute (`pipe.GetVertexInputs()` entry);
`elementSize` is `attr.format.ElementSize()`. -/
structure VertexInputAttr where
  used : Bool
  name : String
  vertexBuffer : Nat
  perInstance : Bool
  byteOffset : Nat
  elementSize : Nat
deriving DecidableEq

/-- One entry of `vsrefl.constantBlocks`. -/
structure ConstantBlockRefl where
  name : String
  bindArraySize : Nat
deriving DecidableEq, Inhabited

/-- One entry of `pipe.GetConstantBlocks(Vertex)`; `accessIndex` is
`cb.access.index`. -/
structure BoundCB where
  accessIndex : Nat
deriving DecidableEq

/-- `rd.VarType`, restricted to the cases the matrix scan distinguishes. -/
inductive VarType where
  | Float
  | Half
  | Double
  | Other
deriving DecidableEq

/-- One constant-buffer variable as returned by
`GetCBufferVariableContents`; `values` lists the matrix entries the scan
reads (after `HalfToFloat` conversion for half floats). -/
structure ShaderVar where
  name : String
  rows : Nat
  columns : Nat
  type : VarType
  values : List ℚ
deriving DecidableEq

/-- One entry of `r.GetUsage(...)`. -/
structure BufUsage where
  eventId : Nat
  usage : ResourceUsage
deriving DecidableEq

/-- Membership in the `write_usages` list of `check_invalid_verts`. -/
def ResourceUsage.isWrite : ResourceUsage → Bool
  | ResourceUsage.VS_RWResource => true
  | ResourceUsage.HS_RWResource => true
  | ResourceUsage.DS_RWResource => true
  | ResourceUsage.GS_RWResource => true
  | ResourceUsage.PS_RWResource => true
  | ResourceUsage.CS_RWResource => true
  | ResourceUsage.All_RWResource => true
  | ResourceUsage.Copy => true
  | ResourceUsage.StreamOut => true
  | ResourceUsage.CopyDst => true
  | ResourceUsage.Discard => true
  | ResourceUsage.CPUWrite => true
  | _ => false

/-- The drawcall fields `check_invalid_verts` reads. -/
structure DrawcallDesc where
  indexed : Bool
  numIndices : Nat
  numInstances : Nat
  indexOffset : Nat
  baseVertex : Int
  vertexOffset : Nat
  instanceOffset : Nat

/-- Environment for `check_invalid_verts`: the pipeline state and replay
queries it consults. -/
structure VertEnv where
  vs : ResourceId
  drawcall : DrawcallDesc
  ib : BoundBuffer
  buffers : List BufferDescription
  bufferData : ResourceId → Nat → Nat → List Nat
  restartIndex : Nat
  restartEnabled : Bool
  vsinputs : List VertexInputAttr
  vbuffers : List BoundBuffer
  constantBlocks : List ConstantBlockRefl
  boundCBs : List BoundCB
  cbVars : Nat → List ShaderVar
  usage : ResourceId → List BufUsage
  eid : Nat

/-- `Analysis.get_buf`: first buffer description with the given id. -/
def VertEnv.get_buf (env : VertEnv) (rid : ResourceId) : Option BufferDescription :=
  env.buffers.find? (fun b => decide (b.resourceId = rid))

/-- The unbounded-binding resolution pattern (`if the binding is unbounded,
figure out how much is left in the buffer`), with `offs` the binding offset
in use. -/
def resolveSize (env : VertEnv) (b : BoundBuffer) (offs : Nat) : Nat :=
  if b.byteSize = UNBOUNDED then
    match env.get_buf b.resourceId with
    | none => 0
    | some buf => if offs > buf.length then 0 else buf.length - offs
  else b.byteSize

/-- Little-endian byte combination used by `struct.unpack_from`. -/
def bytesToNat : List Nat → Nat
  | [] => 0
  | b :: rest => b + 256 * bytesToNat rest

/-- `struct.unpack_from('=<count><fmt>', data)`: `count` consecutive
elements of `width` bytes from offset 0. -/
def unpackIndices (width : Nat) (data : List Nat) (count : Nat) : List Int :=
  (List.range count).map (fun k => (bytesToNat ((data.drop (k * width)).take width) : Int))

/-- Result of the index-fetch part of `check_invalid_verts` (lines 816-885):
either the `no valid index buffer` escape, or the optional out-of-bounds
advisory plus the (restart-mapped, base-vertex-adjusted) index list. -/
inductive IndexPhaseRes where
  | invalidIB
  | ok (adv : List ResultStep) (indices : List (Option Int))

/-- Index-fetch phase of `check_invalid_verts`. -/
def indexPhase (env : VertEnv) : IndexPhaseRes :=
  if env.drawcall.indexed then
    if env.ib.resourceId = ResourceId.null ∨ env.ib.byteStride = 0 then
      IndexPhaseRes.invalidIB
    else
      let ibOffs := env.ib.byteOffset + env.drawcall.indexOffset * env.ib.byteStride
      let ibSize := resolveSize env env.ib ibOffs
      let ibNeeded := env.drawcall.numIndices * env.ib.byteStride
      let adv := if ibSize < ibNeeded then
          [ResultStep.withPipe
            (Msg.indexBufferOutOfBounds env.drawcall.numIndices env.ib.byteStride
              env.ib.resourceId ibNeeded ibSize)
            PipelineStage.VertexInput]
        else []
      let read_bytes := min ibSize ibNeeded
      let ibdata := if read_bytes > 0 then env.bufferData env.ib.resourceId ibOffs read_bytes else []
      let width := if env.ib.byteStride = 2 then 2 else if env.ib.byteStride = 4 then 4 else 1
      let avail_indices := ibdata.length / env.ib.byteStride
      let count := min avail_indices env.drawcall.numIndices
      let raw := unpackIndices width ibdata count
      let riMask := env.restartIndex % 2 ^ (8 * env.ib.byteStride)
      IndexPhaseRes.ok adv (mapRestart env.restartEnabled riMask env.drawcall.baseVertex raw)
  else
    IndexPhaseRes.ok []
      ((List.range env.drawcall.numIndices).map
        (fun i => some ((i : Int) + (env.drawcall.vertexOffset : Int))))

/-- Result of an advisory-appending loop: the appended steps, or an escaping
exception with the steps appended before it. -/
inductive PhaseRes where
  | ok (adv : List ResultStep)
  | error (e : PyErr) (adv : List ResultStep)

/-- Available bytes of a bound vertex buffer (the `avail` array). -/
def vbAvail (env : VertEnv) (vb : BoundBuffer) : Nat :=
  resolveSize env vb vb.byteOffset

/-- One iteration of the attribute bounds-check loop (lines 910-992).
`TypeError` arises when the per-vertex branch adds the `None` produced by a
lone restart index to the base vertex. -/
def attrCheckStep (env : VertEnv) (maxIndex : Option Int)
    (attr : VertexInputAttr) : Except PyErr (List ResultStep) :=
  if attr.used = false then Except.ok []
  else if attr.vertexBuffer ≥ env.vbuffers.length ∨
      (env.vbuffers.getD attr.vertexBuffer default).resourceId = ResourceId.null then
    Except.ok [ResultStep.withPipe (Msg.attrNoBufferBound attr.name attr.vertexBuffer)
      PipelineStage.VertexInput]
  else
    let vb := env.vbuffers.getD attr.vertexBuffer default
    let avail_bytes := vbAvail env vb
    let used_bytes := attr.elementSize
    if attr.perInstance then
      let max_inst := env.drawcall.numInstances - 1
      let max_inst_offs := env.drawcall.instanceOffset + max_inst
      if attr.byteOffset + max_inst_offs * vb.byteStride + used_bytes > avail_bytes then
        Except.ok [ResultStep.withPipe
          (Msg.perInstanceAttrOutOfBounds attr.name attr.vertexBuffer)
          PipelineStage.VertexInput]
      else Except.ok []
    else
      match maxIndex with
      | none => Except.error PyErr.typeError
      | some mi =>
        let max_idx_offs := (max (env.drawcall.baseVertex + mi) 0).toNat
        if attr.byteOffset + max_idx_offs * vb.byteStride + used_bytes > avail_bytes then
          Except.ok [ResultStep.withPipe
            (Msg.perVertexAttrOutOfBounds attr.name attr.vertexBuffer)
            PipelineStage.VertexInput]
        else Except.ok []

/-- The attribute bounds-check loop. -/
def attrPhaseGo (env : VertEnv) (maxIndex : Option Int) :
    List VertexInputAttr → PhaseRes
  | [] => PhaseRes.ok []
  | a :: rest =>
    match attrCheckStep env maxIndex a with
    | Except.error e => PhaseRes.error e []
    | Except.ok s =>
      match attrPhaseGo env maxIndex rest with
      | PhaseRes.ok r => PhaseRes.ok (s ++ r)
      | PhaseRes.error e r => PhaseRes.error e (s ++ r)

/-- One constant-buffer variable of the all-zero-matrix scan
(lines 1008-1052).  The message interpolates
`vsrefl.constantBlocks[i].name` where `i` is the leftover loop variable of
`for i, vb in enumerate(vbuffers)`: with no vertex buffers that name is
undefined (`NameError`), and with an out-of-range leftover index the lookup
raises `IndexError`. -/
def cbVarStep (env : VertEnv) (v : ShaderVar) : Except PyErr (List ResultStep) :=
  if v.rows > 1 ∧ v.columns > 1 then
    let suspicious := match v.type with
      | VarType.Float => v.values.all (fun q => decide (q = 0))
      | VarType.Half => v.values.all (fun q => decide (q = 0))
      | VarType.Double => v.values.all (fun q => decide (q = 0))
      | VarType.Other => true
    if suspicious then
      match env.vbuffers.length with
      | 0 => Except.error PyErr.nameError
      | n + 1 =>
        if n < env.constantBlocks.length then
          Except.ok [ResultStep.withPipe
            (Msg.allZeroMatrix v.name (env.constantBlocks.getD n default).name)
            PipelineStage.VertexShader]
        else Except.error PyErr.indexError
    else Except.ok []
  else Except.ok []

/-- Fold of `cbVarStep` over one block's variables. -/
def cbVarsGo (env : VertEnv) : List ShaderVar → PhaseRes
  | [] => PhaseRes.ok []
  | v :: rest =>
    match cbVarStep env v with
    | Except.error e => PhaseRes.error e []
    | Except.ok s =>
      match cbVarsGo env rest with
      | PhaseRes.ok r => PhaseRes.ok (s ++ r)
      | PhaseRes.error e r => PhaseRes.error e (s ++ r)

/-- One bound constant block (`for cb in self.pipe.GetConstantBlocks(...)`);
the `bindArraySize` guard indexes `vsrefl.constantBlocks` with
`cb.access.index`. -/
def cbBlockStep (env : VertEnv) (cb : BoundCB) : PhaseRes :=
  if cb.accessIndex < env.constantBlocks.length then
    if (env.constantBlocks.getD cb.accessIndex default).bindArraySize ≤ 1 then
      cbVarsGo env (env.cbVars cb.accessIndex)
    else PhaseRes.ok []
  else PhaseRes.error PyErr.indexError []

/-- The constant-block scan loop. -/
def cbPhaseGo (env : VertEnv) : List BoundCB → PhaseRes
  | [] => PhaseRes.ok []
  | cb :: rest =>
    match cbBlockStep env cb with
    | PhaseRes.error e s => PhaseRes.error e s
    | PhaseRes.ok s =>
      match cbPhaseGo env rest with
      | PhaseRes.ok r => PhaseRes.ok (s ++ r)
      | PhaseRes.error e r => PhaseRes.error e (s ++ r)

/-- Python `'pos' in attr.name.lower()`. -/
def containsPos (s : String) : Bool := decide ((s.toLower.splitOn "pos").length ≠ 1)

/-- The chunking loop `while offs + elem_size <= len(data)` with step
`vb.byteStride`, for a positive stride. -/
def strideChunks (stride elem : Nat) (data : List Nat) : List (List Nat) :=
  if elem > data.length then []
  else (List.range ((data.length - elem) / stride + 1)).map
    (fun k => (data.drop (k * stride)).take elem)

/-- The bytes fetched for the position-attribute heuristic: the
`GetBufferData(..., 0)` call at the attribute's highest read offset
(lines 1078-1080). -/
def posAttrData (env : VertEnv) (attr : VertexInputAttr) (mi : Int) : List Nat :=
  env.bufferData (env.vbuffers.getD attr.vertexBuffer default).resourceId
    ((env.vbuffers.getD attr.vertexBuffer default).byteOffset + attr.byteOffset +
      (max (env.drawcall.baseVertex + mi - 1) 0).toNat *
        (env.vbuffers.getD attr.vertexBuffer default).byteStride) 0

/-- The `vert_bytes` chunk list of the heuristic (lines 1083-1087). -/
def posAttrChunks (env : VertEnv) (attr : VertexInputAttr) (mi : Int) : List (List Nat) :=
  strideChunks (env.vbuffers.getD attr.vertexBuffer default).byteStride
    attr.elementSize (posAttrData env attr mi)

/-- The buffer's last write before the analysed event, as interpolated into
the heuristic's advisory (lines 1094-1112). -/
def posAttrLastMod (env : VertEnv) (attr : VertexInputAttr) :
    Option (Nat × ResourceUsage) :=
  ((((env.usage (env.vbuffers.getD attr.vertexBuffer default).resourceId).filter
      (fun u => decide (u.eventId < env.eid))).filter
    (fun u => u.usage.isWrite)).getLast?).map (fun u => (u.eventId, u.usage))

/-- One iteration of the position-attribute heuristic loop
(lines 1057-1127).  A zero byte stride with a chunk that fits makes the
source's `while` loop run forever (`nonTermination`); a `None` maximum index
again raises `TypeError` in the offset arithmetic. -/
def posAttrStep (env : VertEnv) (maxIndex : Option Int)
    (attr : VertexInputAttr) : Except PyErr (List ResultStep) :=
  if attr.used = false then Except.ok []
  else if containsPos attr.name = false then Except.ok []
  else if attr.vertexBuffer ≥ env.vbuffers.length then Except.ok []
  else if (env.vbuffers.getD attr.vertexBuffer default).resourceId = ResourceId.null then
    Except.ok []
  else if attr.perInstance then
    Except.ok [ResultStep.withPipe (Msg.posAttrPerInstance attr.name)
      PipelineStage.VertexInput]
  else
    match maxIndex with
    | none => Except.error PyErr.typeError
    | some mi =>
      if (env.vbuffers.getD attr.vertexBuffer default).byteStride = 0 ∧
          attr.elementSize ≤ (posAttrData env attr mi).length then
        Except.error PyErr.nonTermination
      else if (posAttrChunks env attr mi).length > 1 then
        if (posAttrChunks env attr mi).dedup.all
            (fun c => c.all (fun b => decide (b = 0))) then
          Except.ok [ResultStep.withMesh
            (Msg.posAttrAllZero attr.name (posAttrLastMod env attr))
            MeshDataStage.VSIn]
        else if (posAttrChunks env attr mi).dedup.length ≤ 1 then
          Except.ok [ResultStep.withMesh
            (Msg.posAttrAllIdentical attr.name (posAttrLastMod env attr))
            MeshDataStage.VSIn]
        else Except.ok []
      else Except.ok []

/-- The position-attribute heuristic loop. -/
def posPhaseGo (env : VertEnv) (maxIndex : Option Int) :
    List VertexInputAttr → PhaseRes
  | [] => PhaseRes.ok []
  | a :: rest =>
    match posAttrStep env maxIndex a with
    | Except.error e => PhaseRes.error e []
    | Except.ok s =>
      match posPhaseGo env maxIndex rest with
      | PhaseRes.ok r => PhaseRes.ok (s ++ r)
      | PhaseRes.error e r => PhaseRes.error e (s ++ r)

/-- `Analysis.check_invalid_verts`: the missing-vertex-shader and
invalid-index-buffer guards (both `raise AnalysisFinished`), the index
fetch, `max_index = max(indices)`, the three advisory loops, and the final
`no problems found` step when the step count did not grow past `prev_len`
(taken right after the vertex-shader guard). -/
def check_invalid_verts (env : VertEnv) (steps0 : List ResultStep) : Outcome :=
  if env.vs = ResourceId.null then
    Outcome.finished (steps0 ++
      [ResultStep.withPipe Msg.noVertexShader PipelineStage.VertexShader])
  else
    match indexPhase env with
    | IndexPhaseRes.invalidIB =>
      Outcome.finished (steps0 ++
        [ResultStep.withPipe Msg.noValidIndexBuffer PipelineStage.VertexInput])
    | IndexPhaseRes.ok adv1 indices =>
      match pyMax indices with
      | Except.error e => Outcome.error e (steps0 ++ adv1)
      | Except.ok maxIndex =>
        match attrPhaseGo env maxIndex env.vsinputs with
        | PhaseRes.error e adv2 => Outcome.error e (steps0 ++ adv1 ++ adv2)
        | PhaseRes.ok adv2 =>
          match cbPhaseGo env env.boundCBs with
          | PhaseRes.error e adv3 => Outcome.error e (steps0 ++ adv1 ++ adv2 ++ adv3)
          | PhaseRes.ok adv3 =>
            match posPhaseGo env maxIndex env.vsinputs with
            | PhaseRes.error e adv4 =>
              Outcome.error e (steps0 ++ adv1 ++ adv2 ++ adv3 ++ adv4)
            | PhaseRes.ok adv4 =>
              let adv := adv1 ++ adv2 ++ adv3 ++ adv4
              if adv.isEmpty then
                Outcome.proceed (steps0 ++ [ResultStep.msgOnly Msg.noProblemsFound])
              else Outcome.proceed (steps0 ++ adv)

/-! ## The pixel-history sampling tail of `Analysis.check_onscreen`

Lines 539-612: after the state checks are exhausted, the engine (when the
backend supports pixel history) shuffles the covered-pixel list with
`random.shuffle`, samples up to five pixels and reports what it saw.  The
shuffled order is an input here (`covered_shuffled`): two runs on the same
capture may call this with different permutations of the same covered
set. -/

/-- `rd.BlendMultiplier`, restricted to the cases this path inspects. -/
inductive BlendMultiplier where
  | Zero
  | One
  | SrcCol
  | SrcAlpha
  | InvSrcAlpha
  | Other
deriving DecidableEq

/-- `color_blends[0]`: enabled flag and `colorBlend.source`. -/
structure ColorBlend where
  enabled : Bool
  sourceMul : BlendMultiplier
deriving DecidableEq

/-- Environment for the sampling tail. -/
structure OnscreenEnv where
  pixelHistorySupported : Bool
  eid : Nat
  history : Nat × Nat → List PixelMod
  blend0 : Option ColorBlend

/-- The step appended when the sampled pixel's last fragment passed
(lines 577-591).  The all-discarded advisory template in the source lacks
its `.format` call, so `pixelHistoryAlphaZero` carries no coordinates. -/
def passedStep (env : OnscreenEnv) (lastH : PixelMod) (c : Nat × Nat) : ResultStep :=
  let blend := env.blend0.getD { enabled := false, sourceMul := BlendMultiplier.Zero }
  if lastH.shaderOutAlpha ≤ 0 ∧ blend.enabled = true ∧
      blend.sourceMul = BlendMultiplier.SrcAlpha then
    ResultStep.msgOnly Msg.pixelHistoryAlphaZero
  else
    ResultStep.msgOnly (Msg.pixelHistoryPassed c.1 c.2)

/-- The `for attempt in range(attempts)` loop: skip pixels with no usable
history, break with a message on a passing fragment, collect pixels whose
fragments all discarded. -/
def historyLoop (env : OnscreenEnv) :
    List (Nat × Nat) → List (Nat × Nat) → Option ResultStep × List (Nat × Nat)
  | [], acc => (none, acc)
  | c :: rest, acc =>
    let h := env.history c
    match h.getLast? with
    | none => historyLoop env rest acc
    | some lastH =>
      if lastH.eventId ≠ env.eid then historyLoop env rest acc
      else if lastH.passed then (some (passedStep env lastH c), acc)
      else
        let this_draw := h.filter (fun m => decide (m.eventId = env.eid))
        historyLoop env rest
          (if this_draw.all (fun m => m.shaderDiscarded) then acc ++ [c] else acc)

/-- The pixel-history sampling tail of `check_onscreen`.  `.proceed` models
`check_onscreen` returning (after which `check_draw` appends its fixed
exhaustion note and raises the sentinel). -/
def onscreenTail (env : OnscreenEnv) (covered_shuffled : List (Nat × Nat))
    (steps : List ResultStep) : Outcome :=
  if env.pixelHistorySupported then
    let attempts := min 5 covered_shuffled.length
    let loopRes := historyLoop env (covered_shuffled.take attempts) []
    let steps := steps ++ (match loopRes.1 with | some s => [s] | none => [])
    if loopRes.2.length > 0 then
      Outcome.proceed (steps ++
        [ResultStep.msgOnly (Msg.pixelHistoryDiscards attempts loopRes.2.length)])
    else
      Outcome.proceed (steps ++ [ResultStep.msgOnly Msg.pixelHistoryNoDiscards])
  else
    Outcome.proceed (steps ++ [ResultStep.msgOnly Msg.pixelHistoryUnsupported])

/-! ## Resource scope of `Analysis.__init__`

Lines 73-168: the constructor seeks to the analysed event, creates the
offscreen output, runs the guarded body, and in `finally` shuts the output
down and calls `SetFrameEvent(self.eid, False)` — the analysed event, not
whatever event was current before. -/

/-- The replay-context state the orchestrator touches: the current event
and how many times the offscreen output's `Shutdown` ran. -/
structure ReplayState where
  pos : Nat
  shutdownCount : Nat
deriving DecidableEq

/-- How the `try` body ends: `finished` for the `AnalysisFinished` sentinel
(caught by `except AnalysisFinished: pass`), `returned` for a plain return,
`errored` for any other exception (uncaught, it propagates after
`finally`). -/
inductive BodyResult where
  | finished
  | returned
  | errored (e : PyErr)
deriving DecidableEq

/-- The `SetFrameEvent` / `try` / `finally` skeleton of
`Analysis.__init__`, with the body (precondition checks plus `check_draw`)
abstracted as a state transformer.  Returns the final replay state and the
exception escaping the constructor, if any. -/
def analysis_init_run (eid : Nat) (body : ReplayState → ReplayState × BodyResult)
    (s0 : ReplayState) : ReplayState × Option PyErr :=
  let s1 : ReplayState := { s0 with pos := eid }
  let br := body s1
  let s3 : ReplayState :=
    { br.1 with shutdownCount := br.1.shutdownCount + 1, pos := eid }
  match br.2 with
  | BodyResult.errored e => (s3, some e)
  | _ => (s3, none)

/-! ## Reference semantics of the `ResultStep` constructor

`ResultStep.__init__` copies `tex_display`
(`self.tex_display = rd.TextureDisplay(tex_display)`) but stores
`pixel_history` as the caller's object
(`self.pixel_history = pixel_history`).  Python objects live on a heap;
`PyHeap` holds them and a `StepObj` holds references into it. -/

/-- The mutable objects a step construction can involve. -/
structure PyHeap where
  texObjs : List TextureDisplay
  phObjs : List PixelHistoryData
deriving DecidableEq

/-- A constructed `ResultStep`, with its hints as heap references. -/
structure StepObj where
  msg : Msg
  texRef : Nat
  phRef : Nat
deriving DecidableEq

/-- `ResultStep.__init__(msg, tex_display, pixel_history)`: allocate a fresh
copy of the caller's `TextureDisplay`, alias the caller's
`PixelHistoryData`. -/
def ResultStep_init_refs (h : PyHeap) (m : Msg) (texRef phRef : Nat) :
    PyHeap × StepObj :=
  let copied := h.texObjs.getD texRef TextureDisplay.default
  ({ h with texObjs := h.texObjs ++ [copied] },
   { msg := m, texRef := h.texObjs.length, phRef := phRef })

/-- Caller mutates its `TextureDisplay` object (any field assignment). -/
def PyHeap.writeTex (h : PyHeap) (r : Nat) (v : TextureDisplay) : PyHeap :=
  { h with texObjs := h.texObjs.set r v }

/-- Caller mutates its `PixelHistoryData` object (any field assignment). -/
def PyHeap.writePh (h : PyHeap) (r : Nat) (v : PixelHistoryData) : PyHeap :=
  { h with phObjs := h.phObjs.set r v }

/-- The `TextureDisplay` value a step's `tex_display` shows under a heap. -/
def StepObj.viewTex (s : StepObj) (h : PyHeap) : TextureDisplay :=
  h.texObjs.getD s.texRef TextureDisplay.default

/-- The `PixelHistoryData` value a step's `pixel_history` shows under a
heap. -/
def StepObj.viewPh (s : StepObj) (h : PyHeap) : PixelHistoryData :=
  h.phObjs.getD s.phRef PixelHistoryData.default

/-! ## Concrete scenario inputs used by the claim theorems -/

/-- Recognizer for the `viewport depth range ... outside the depth bounds
range` conclusion (the message of the viewport-vs-depth-bounds check). -/
def Msg.isViewportOutside : Msg → Bool
  | Msg.viewportDepthOutsideDepthBounds _ _ _ _ => true
  | _ => false

/-- Depth-checker state for claim C1's failing input: an onscreen draw that
fails the depth overlay while every post-transform vertex has a non-finite
NDC z (for example all-NaN z with w = 1). -/
def depthStateEmptyZ : DepthState :=
  { viewport := { minDepth := 0, maxDepth := 1 },
    depth_func := CompareFunction.Less,
    ndc_bounds := (0, 1),
    depth_bounds := none,
    depth_enabled := true,
    depth_clamp := false,
    isD3D := false,
    postvs_stage := MeshDataStage.VSOut,
    vert_ndc_z := [none, none] }

/-- Depth-checker state for claim C3's scenario: viewport depth range
[0, 1], depth bounds test enabled with range [0.2, 0.3], vertex NDC z
bounds [0.5, 0.9] (two finite vertices at 0.5 and 0.9). -/
def depthStateBoundsDisjoint : DepthState :=
  { viewport := { minDepth := 0, maxDepth := 1 },
    depth_func := CompareFunction.Less,
    ndc_bounds := (0, 1),
    depth_bounds := some (1/5, 3/10),
    depth_enabled := true,
    depth_clamp := true,
    isD3D := false,
    postvs_stage := MeshDataStage.VSOut,
    vert_ndc_z := [some (1/2), some (9/10)] }

/-- The trail `check_failed_depth` produces on `depthStateBoundsDisjoint`:
the walk passes the viewport-vs-depth-bounds check (appending its `within`
advisory) and terminates at the vertex-bounds-vs-depth-bounds check. -/
def depthTrailBoundsDisjoint : List ResultStep :=
  [ResultStep.withTex Msg.depthOverlayRed TextureDisplay.default,
   ResultStep.withPipe (Msg.vertexNdcZBounds (1/2) (9/10)) PipelineStage.Rasterizer,
   ResultStep.msgOnly (Msg.depthClampIgnoresPlanes false),
   ResultStep.withMesh (Msg.viewportDepthWithinDepthBounds 0 1 (1/5) (3/10))
     MeshDataStage.VSOut,
   ResultStep.withPipe (Msg.allVertsOutsideDepthBounds (1/5) (3/10))
     PipelineStage.Rasterizer]

/-- Stencil state for claim C6: culling disabled, both faces compare `Less`
against reference 0 (compare mask 0xff). -/
def stencilStateLessZero : StencilState :=
  { cull_mode := CullMode.NoCull, stencil_enabled := true,
    front := { function := CompareFunction.Less, reference := 0, compareMask := 255 },
    back := { function := CompareFunction.Less, reference := 0, compareMask := 255 } }

/-- Stencil state for claim C4's failing input: culling disabled, both
faces compare `NotEqual` (reference 1, compare mask 0xff). -/
def stencilStateNotEqual : StencilState :=
  { cull_mode := CullMode.NoCull, stencil_enabled := true,
    front := { function := CompareFunction.NotEqual, reference := 1, compareMask := 255 },
    back := { function := CompareFunction.NotEqual, reference := 1, compareMask := 255 } }

/-- Onscreen-tail environment for claim C2: pixel history supported, and
both covered pixels have a passing last fragment at the analysed event. -/
def onscreenEnvShuffle : OnscreenEnv :=
  { pixelHistorySupported := true, eid := 100,
    history := fun _ => [{ eventId := 100, passed := true, shaderDiscarded := false,
                           shaderOutAlpha := 1 }],
    blend0 := none }

/-- Onscreen-tail environment with pixel history unsupported (claim C2's
witness). -/
def onscreenEnvNoHistory : OnscreenEnv :=
  { pixelHistorySupported := false, eid := 100,
    history := fun _ => [], blend0 := none }

/-- `check_invalid_verts` environment for claim C7's counterexample: no
vertex shader bound, everything else trivial. -/
def vertEnvNoVS : VertEnv :=
  { vs := ResourceId.null,
    drawcall := { indexed := false, numIndices := 0, numInstances := 0,
                  indexOffset := 0, baseVertex := 0, vertexOffset := 0,
                  instanceOffset := 0 },
    ib := default,
    buffers := [],
    bufferData := fun _ _ _ => [],
    restartIndex := 0,
    restartEnabled := false,
    vsinputs := [],
    vbuffers := [],
    constantBlocks := [],
    boundCBs := [],
    cbVars := fun _ => [],
    usage := fun _ => [],
    eid := 0 }

/-- A trivial healthy `check_invalid_verts` environment (claim C7's
witness): a one-vertex non-indexed draw, no attributes or constant blocks
to complain about. -/
def vertEnvClean : VertEnv :=
  { vs := 1,
    drawcall := { indexed := false, numIndices := 1, numInstances := 1,
                  indexOffset := 0, baseVertex := 0, vertexOffset := 0,
                  instanceOffset := 0 },
    ib := default,
    buffers := [],
    bufferData := fun _ _ _ => [],
    restartIndex := 0,
    restartEnabled := false,
    vsinputs := [],
    vbuffers := [],
    constantBlocks := [],
    boundCBs := [],
    cbVars := fun _ => [],
    usage := fun _ => [],
    eid := 0 }

/-- A heap with one caller-owned `TextureDisplay` and one caller-owned
`PixelHistoryData` (claim C8). -/
def heapOneEach : PyHeap :=
  { texObjs := [TextureDisplay.default], phObjs := [PixelHistoryData.default] }

/-- The step constructed from the caller's two hint objects on
`heapOneEach`. -/
def stepOnHeap : PyHeap × StepObj :=
  ResultStep_init_refs heapOneEach Msg.noProblemsFound 0 0

/-- A mutated `PixelHistoryData` value for claim C8's counterexample. -/
def mutatedPh : PixelHistoryData :=
  { PixelHistoryData.default with x := 7 }

/-! ## Theorems settling the claims -/

/-- C9: a Result Step has details iff at least one optional reference is
populated — the texture display names a resource, the pixel history names a
target, the pipeline-stage tag differs from the `ComputeShader` sentinel,
or the mesh-view tag differs from the `Count` sentinel — and a step
constructed with only a message reports no details. -/
theorem C9_has_details_characterisation :
    ∀ (s : ResultStep) (m : Msg),
      (s.has_details = true ↔
        (s.tex_display.resourceId ≠ ResourceId.null ∨
         s.pixel_history.id ≠ ResourceId.null ∨
         s.pipe_stage ≠ PipelineStage.ComputeShader ∨
         s.mesh_view ≠ MeshDataStage.Count)) ∧
      (ResultStep.msgOnly m).has_details = false := by
  intro s m
  refine ⟨?_, rfl⟩
  simp [ResultStep.has_details, or_assoc]

/-- C6: with culling disabled and both stencil faces set to compare `Less`
against reference 0, the stencil checker terminates with the `impossible`
conclusion attributed to plain `test` (both faces), not to a specific
front or back face test. -/
theorem C6_stencil_impossible_both_faces :
    check_failed_stencil stencilStateLessZero TextureDisplay.default [] =
      Outcome.finished
        [ResultStep.withTex Msg.stencilOverlayRed TextureDisplay.default,
         ResultStep.withPipe
           (Msg.stencilCheckFired StencilCheckKind.lessGreaterBoundary FaceAttr.test
             { function := CompareFunction.Less, reference := 0, compareMask := 255 })
           PipelineStage.StencilTest] := rfl

/-- C4: with both effective faces set to compare `NotEqual`, the stencil
checker appends no advisory at all before falling through to the
previous-contents check — the `unusual` check's predicate tests `Never`
again instead of `NotEqual`, so the advisory the claim (and the spec's
stated intent) requires never fires. -/
theorem C4_notequal_advisory_never_fires :
    check_failed_stencil stencilStateNotEqual TextureDisplay.default [] =
      Outcome.proceed
        [ResultStep.withTex Msg.stencilOverlayRed TextureDisplay.default] := rfl

/-- C1: on an onscreen draw that fails the depth overlay with every vertex
NDC z non-finite, `check_failed_depth` raises `ValueError` from
`min(vert_ndc_z)` on the empty filtered list; this exception is not the
`AnalysisFinished` sentinel, so it escapes the stage walk (the constructor
only catches `AnalysisFinished`) and no trail is delivered. -/
theorem C1_depth_checker_faults_on_empty_ndc :
    check_failed_depth depthStateEmptyZ TextureDisplay.default [] =
      Outcome.error PyErr.valueError
        [ResultStep.withTex Msg.depthOverlayRed TextureDisplay.default] := rfl

/-- C7 counterexample: with no vertex shader bound, `check_invalid_verts`
does raise a terminal conclusion (the `AnalysisFinished` sentinel) rather
than only appending advisories, contradicting the claim. -/
theorem C7_counterexample_vs_guard_terminal :
    check_invalid_verts vertEnvNoVS [] =
      Outcome.finished
        [ResultStep.withPipe Msg.noVertexShader PipelineStage.VertexShader] := rfl

/-- C8 counterexample: mutating the caller's `PixelHistoryData` object
after the step is constructed changes the step's recorded `pixel_history`
— the constructor aliases the payload instead of copying it. -/
theorem C8_counterexample_pixel_history_aliased :
    stepOnHeap.2.viewPh (stepOnHeap.1.writePh 0 mutatedPh) ≠
      stepOnHeap.2.viewPh stepOnHeap.1 := by decide

/-- C5 counterexample: starting from replay position 5 and analysing event
10, the exit path leaves the replay position at the analysed event 10 — not
restored to the pre-analysis event 5 (the render target is still released
exactly once). -/
theorem C5_counterexample_position_not_restored :
    (analysis_init_run 10 (fun s => (s, BodyResult.finished))
        { pos := 5, shutdownCount := 0 }).1 =
      { pos := 10, shutdownCount := 1 } ∧ (5 : Nat) ≠ 10 :=
  ⟨rfl, by decide⟩

/-- C5 amended: on every exit path (sentinel, plain return, or a propagated
error) the offscreen render target is released exactly once, and the
replay position is left at the analysed event (which is the pre-analysis
position only when that position was already the analysed event). -/
theorem C5_amended_cleanup_on_every_exit :
    ∀ (eid : Nat) (body : ReplayState → ReplayState × BodyResult) (s0 : ReplayState),
      (∀ s, ((body s).1).shutdownCount = s.shutdownCount) →
      (analysis_init_run eid body s0).1.shutdownCount = s0.shutdownCount + 1 ∧
      (analysis_init_run eid body s0).1.pos = eid := by
  intro eid body s0 hb
  simp only [analysis_init_run]
  cases hbr : (body { s0 with pos := eid }).2 <;> simp [hbr, hb]

/-- C5 witness: the amended cleanup theorem at a concrete body and state. -/
theorem C5_witness_cleanup :
    (analysis_init_run 9 (fun s => (s, BodyResult.returned))
        { pos := 3, shutdownCount := 4 }).1.shutdownCount = 5 ∧
    (analysis_init_run 9 (fun s => (s, BodyResult.returned))
        { pos := 3, shutdownCount := 4 }).1.pos = 9 :=
  C5_amended_cleanup_on_every_exit 9 (fun s => (s, BodyResult.returned))
    { pos := 3, shutdownCount := 4 } (fun _ => rfl)

/-- C2 counterexample: the pixel-history sampling tail reports the first
sampled covered pixel whose fragment passed, so two runs whose
`random.shuffle` orders the same covered set differently produce different
trails — the trail is not a function of the capture and replay state
alone. -/
theorem C2_counterexample_shuffle_changes_trail :
    onscreenTail onscreenEnvShuffle [(1, 2), (3, 4)] [] ≠
      onscreenTail onscreenEnvShuffle [(3, 4), (1, 2)] [] := by
  have h1 : onscreenTail onscreenEnvShuffle [(1, 2), (3, 4)] [] =
      Outcome.proceed [ResultStep.msgOnly (Msg.pixelHistoryPassed 1 2),
        ResultStep.msgOnly Msg.pixelHistoryNoDiscards] := by
    simp [onscreenTail, onscreenEnvShuffle, historyLoop, passedStep]
  have h2 : onscreenTail onscreenEnvShuffle [(3, 4), (1, 2)] [] =
      Outcome.proceed [ResultStep.msgOnly (Msg.pixelHistoryPassed 3 4),
        ResultStep.msgOnly Msg.pixelHistoryNoDiscards] := by
    simp [onscreenTail, onscreenEnvShuffle, historyLoop, passedStep]
  rw [h1, h2]
  decide

/-- C2 amended: the engine is deterministic apart from the shuffled pixel
sampling — in particular, when the backend does not support pixel history
the sampling tail's output does not depend on the covered-pixel order at
all, so two runs produce identical trails. -/
theorem C2_amended_no_history_deterministic :
    ∀ (env : OnscreenEnv) (c1 c2 : List (Nat × Nat)) (steps : List ResultStep),
      env.pixelHistorySupported = false →
      onscreenTail env c1 steps = onscreenTail env c2 steps := by
  intro env c1 c2 steps h
  simp [onscreenTail, h]

/-- C2 witness: the amended determinism theorem at a concrete
environment. -/
theorem C2_witness_no_history :
    onscreenTail onscreenEnvNoHistory [(0, 0)] [] =
      onscreenTail onscreenEnvNoHistory [] [] :=
  C2_amended_no_history_deterministic onscreenEnvNoHistory [(0, 0)] [] [] rfl

/-- Evaluation of the depth checker on the C3 scenario (shared by the C3
counterexample and the C3 amended theorem). -/
theorem depthBoundsDisjoint_eval :
    check_failed_depth depthStateBoundsDisjoint TextureDisplay.default [] =
      Outcome.finished depthTrailBoundsDisjoint := by
  have hmin : pyMinQ (1/2 : ℚ) [9/10] = 1/2 := by
    norm_num [pyMinQ, min_def]
  have hmax : pyMaxQ (1/2 : ℚ) [9/10] = 9/10 := by
    norm_num [pyMaxQ, max_def]
  simp only [check_failed_depth, depthStateBoundsDisjoint]
  rw [if_neg (by decide)]
  simp only [List.filterMap_cons, List.filterMap_nil, id_eq, hmin, hmax]
  norm_num [check_failed_depth_clip, check_failed_depth_bounds, depthTrailBoundsDisjoint]

/-- C3 counterexample: on the claimed scenario (viewport depth [0, 1],
depth bounds [0.2, 0.3], vertex NDC z bounds [0.5, 0.9]) the trail contains
no `viewport depth range outside bounds` conclusion at all — the viewport
range [0, 1] is not disjoint from [0.2, 0.3], so that check passes and the
terminal step is the vertex-bounds conclusion instead. -/
theorem C3_counterexample_viewport_check_passes :
    check_failed_depth depthStateBoundsDisjoint TextureDisplay.default [] =
      Outcome.finished depthTrailBoundsDisjoint ∧
    (depthTrailBoundsDisjoint.map ResultStep.msg).any Msg.isViewportOutside = false ∧
    (depthTrailBoundsDisjoint.map ResultStep.msg).getLast? =
      some (Msg.allVertsOutsideDepthBounds (1/5) (3/10)) :=
  ⟨depthBoundsDisjoint_eval, rfl, rfl⟩

/-- C3 amended: on that scenario the analysis terminates with the `all of
the drawcall vertices are outside the depth bounds range` conclusion
produced by the vertex-bounds-vs-depth-bounds check, after the
viewport-vs-depth-bounds check passes and appends its `within range`
advisory. -/
theorem C3_amended_vertex_bounds_conclusion :
    check_failed_depth depthStateBoundsDisjoint TextureDisplay.default [] =
      Outcome.finished depthTrailBoundsDisjoint :=
  depthBoundsDisjoint_eval

/-- The restart mapping keeps an entry usable iff the raw index differs
from the restart index (helper for C10). -/
theorem mapRestart_all_isSome (ri bv : Int) (raw : List Int) :
    (mapRestart true ri bv raw).all Option.isSome =
      raw.all (fun i => !(decide (i = ri))) := by
  induction raw with
  | nil => rfl
  | cons a l ih =>
    simp only [mapRestart, List.map_cons, List.all_cons] at ih ⊢
    rw [ih]
    by_cases h : a = ri <;> simp [h]

/-- Bridging the boolean no-restart scan to membership (helper for C10). -/
theorem all_ne_iff_not_mem (ri : Int) (raw : List Int) :
    raw.all (fun i => !(decide (i = ri))) = true ↔ ri ∉ raw := by
  simp only [List.all_eq_true, Bool.not_eq_eq_eq_not, Bool.not_true,
    decide_eq_false_iff_not]
  exact ⟨fun h hmem => h ri hmem rfl, fun h i hi he => h (he ▸ hi)⟩

/-- C10 counterexample: a strip draw with restart enabled whose single
fetched index is the restart index maps to `[None]`, and Python `max`
returns that lone `None` without raising — the error branch is *not*
reached even though a restart index is present. -/
theorem C10_counterexample_lone_restart :
    mapRestart true 65535 0 [65535] = [none] ∧
    pyMax (mapRestart true 65535 0 [65535]) = Except.ok none := by
  constructor <;> rfl

/-- C10 amended: the maximum-index reduction yields an integer iff the
fetched index data is non-empty and contains no restart index; an empty
range raises `ValueError`, a restart index among two or more indices
raises `TypeError`, and a lone restart index yields the non-value `None`
from the reduction instead of raising. -/
theorem C10_amended_max_index_welldefined :
    ∀ (ri bv : Int) (raw : List Int),
      ((∃ n : Int, pyMax (mapRestart true ri bv raw) = Except.ok (some n)) ↔
        (raw ≠ [] ∧ ri ∉ raw)) ∧
      (raw = [] → pyMax (mapRestart true ri bv raw) = Except.error PyErr.valueError) ∧
      (ri ∈ raw → 2 ≤ raw.length →
        pyMax (mapRestart true ri bv raw) = Except.error PyErr.typeError) ∧
      (raw = [ri] → pyMax (mapRestart true ri bv raw) = Except.ok none) := by
  intro ri bv raw
  match raw with
  | [] =>
    refine ⟨?_, fun _ => rfl, by simp, by simp⟩
    simp [mapRestart, pyMax]
  | [a] =>
    by_cases h : a = ri
    · subst h
      refine ⟨?_, by simp, by simp, fun _ => by simp [mapRestart, pyMax]⟩
      simp [mapRestart, pyMax]
    · refine ⟨?_, by simp, ?_, ?_⟩
      · simp only [mapRestart, List.map_cons, List.map_nil, Bool.true_and,
          decide_eq_true_eq, if_neg h, pyMax]
        constructor
        · intro _
          exact ⟨List.cons_ne_nil a [], by simp [List.mem_singleton]; exact fun e => h e.symm⟩
        · intro _
          exact ⟨a + bv, rfl⟩
      · intro hmem _
        rw [List.mem_singleton] at hmem
        exact absurd hmem.symm h
      · intro he
        rw [List.cons.injEq] at he
        exact absurd he.1 h
  | a :: b :: rest =>
    have hlen : 2 ≤ (a :: b :: rest).length := by simp
    by_cases hmem : ri ∈ a :: b :: rest
    · have herr : pyMax (mapRestart true ri bv (a :: b :: rest)) =
          Except.error PyErr.typeError := by
        obtain ⟨y, l2, hyl⟩ : ∃ y l2, mapRestart true ri bv (b :: rest) = y :: l2 :=
          ⟨_, _, rfl⟩
        by_cases ha : a = ri
        · have hsh : mapRestart true ri bv (a :: b :: rest) =
              none :: mapRestart true ri bv (b :: rest) := by
            simp [mapRestart, ha]
          rw [hsh, hyl]
          cases hall : (y :: l2).all Option.isSome <;> simp [pyMax, hall]
        · have hsh : mapRestart true ri bv (a :: b :: rest) =
              some (a + bv) :: mapRestart true ri bv (b :: rest) := by
            simp [mapRestart, ha]
          have htail : (mapRestart true ri bv (b :: rest)).all Option.isSome = false := by
            rw [mapRestart_all_isSome]
            by_contra hc
            rw [Bool.not_eq_false] at hc
            have h2 : ri ∈ b :: rest := by
              rcases List.mem_cons.mp hmem with h1 | h2
              · exact absurd h1.symm ha
              · exact h2
            exact (all_ne_iff_not_mem ri (b :: rest)).mp hc h2
          rw [hyl] at htail
          rw [hsh, hyl]
          simp [pyMax, htail]
      refine ⟨?_, by simp, fun _ _ => herr, ?_⟩
      · rw [herr]
        constructor
        · rintro ⟨n, hn⟩
          exact absurd hn (by simp)
        · rintro ⟨_, hno⟩
          exact absurd hmem hno
      · intro he
        rw [he] at hlen
        simp at hlen
    · have ha : ¬(a = ri) := fun e => hmem (e ▸ List.mem_cons_self a (b :: rest))
      obtain ⟨y, l2, hyl⟩ : ∃ y l2, mapRestart true ri bv (b :: rest) = y :: l2 :=
        ⟨_, _, rfl⟩
      have hsh : mapRestart true ri bv (a :: b :: rest) =
          some (a + bv) :: mapRestart true ri bv (b :: rest) := by
        simp [mapRestart, ha]
      have htail : (mapRestart true ri bv (b :: rest)).all Option.isSome = true := by
        rw [mapRestart_all_isSome]
        exact (all_ne_iff_not_mem ri (b :: rest)).mpr
          (fun h2 => hmem (List.mem_cons_of_mem a h2))
      rw [hyl] at htail
      have hok : pyMax (mapRestart true ri bv (a :: b :: rest)) =
          Except.ok (some (((y :: l2).filterMap id).foldl max (a + bv))) := by
        rw [hsh, hyl]
        simp [pyMax, htail]
      refine ⟨?_, by simp, fun h _ => absurd h hmem, ?_⟩
      · rw [hok]
        constructor
        · intro _
          exact ⟨List.cons_ne_nil a (b :: rest), hmem⟩
        · intro _
          exact ⟨_, rfl⟩
      · intro he
        rw [he] at hlen
        simp at hlen

/-- C10 witness: the amended theorem applied at concrete inputs, with the
empty-range and two-or-more-restart hypotheses discharged. -/
theorem C10_witness_max_index :
    pyMax (mapRestart true 7 0 []) = Except.error PyErr.valueError ∧
    pyMax (mapRestart true 7 0 [7, 3]) = Except.error PyErr.typeError :=
  ⟨(C10_amended_max_index_welldefined 7 0 []).2.1 rfl,
   (C10_amended_max_index_welldefined 7 0 [7, 3]).2.2.1 (by decide) (by decide)⟩

/-- C8 amended: the `TextureDisplay` half of the claim holds — the
constructor stores a fresh value copy, so mutating the caller's
`TextureDisplay` object afterwards leaves the step's recorded `tex_display`
unchanged (the `PixelHistoryData` payload, by the counterexample, is
aliased instead). -/
theorem C8_amended_tex_display_copied :
    ∀ (h : PyHeap) (m : Msg) (texRef phRef : Nat) (v : TextureDisplay),
      texRef < h.texObjs.length →
      (ResultStep_init_refs h m texRef phRef).2.viewTex
        (((ResultStep_init_refs h m texRef phRef).1).writeTex texRef v) =
      (ResultStep_init_refs h m texRef phRef).2.viewTex
        (ResultStep_init_refs h m texRef phRef).1 := by
  intro h m texRef phRef v hlt
  simp only [ResultStep_init_refs, StepObj.viewTex, PyHeap.writeTex]
  rw [List.getD_eq_getElem?_getD, List.getD_eq_getElem?_getD,
    List.getElem?_set_ne (Nat.ne_of_lt hlt), List.getD_eq_getElem?_getD]

/-- C8 witness: the copy guarantee at a concrete heap and mutation. -/
theorem C8_witness_tex_display_copied :
    (0 < heapOneEach.texObjs.length) ∧
    (ResultStep_init_refs heapOneEach Msg.noProblemsFound 0 0).2.viewTex
      (((ResultStep_init_refs heapOneEach Msg.noProblemsFound 0 0).1).writeTex 0
        { TextureDisplay.default with resourceId := 9 }) =
    (ResultStep_init_refs heapOneEach Msg.noProblemsFound 0 0).2.viewTex
      (ResultStep_init_refs heapOneEach Msg.noProblemsFound 0 0).1 :=
  ⟨by decide,
   C8_amended_tex_display_copied heapOneEach Msg.noProblemsFound 0 0
     { TextureDisplay.default with resourceId := 9 } (by decide)⟩

/-- Helper: the index phase's advisory list never contains the
`no problems found` step. -/
theorem indexPhase_ok_no_final_step :
    ∀ (env : VertEnv) (adv : List ResultStep) (idx : List (Option Int)),
      indexPhase env = IndexPhaseRes.ok adv idx →
      ResultStep.msgOnly Msg.noProblemsFound ∉ adv := by
  intro env adv idx h
  unfold indexPhase at h
  split at h
  · split at h
    · cases h
    · split at h <;> cases h <;>
        simp [ResultStep.withPipe, ResultStep.msgOnly]
  · cases h
    simp

/-- Helper: one attribute bounds check never yields the
`no problems found` step. -/
theorem attrCheckStep_no_final_step :
    ∀ (env : VertEnv) (mi : Option Int) (a : VertexInputAttr) (l : List ResultStep),
      attrCheckStep env mi a = Except.ok l →
      ResultStep.msgOnly Msg.noProblemsFound ∉ l := by
  intro env mi a l h
  unfold attrCheckStep at h
  split at h
  · cases h
    simp
  · split at h
    · cases h
      simp [ResultStep.withPipe, ResultStep.msgOnly]
    · dsimp only at h
      split at h
      · split at h
        · cases h
          simp [ResultStep.withPipe, ResultStep.msgOnly]
        · cases h
          simp
      · split at h
        · cases h
        · split at h
          · cases h
            simp [ResultStep.withPipe, ResultStep.msgOnly]
          · cases h
            simp

/-- Helper: the attribute loop's advisory list never contains the
`no problems found` step. -/
theorem attrPhaseGo_no_final_step :
    ∀ (env : VertEnv) (mi : Option Int) (l : List VertexInputAttr)
      (adv : List ResultStep),
      attrPhaseGo env mi l = PhaseRes.ok adv →
      ResultStep.msgOnly Msg.noProblemsFound ∉ adv := by
  intro env mi l
  induction l with
  | nil =>
    intro adv h
    cases h
    simp
  | cons a rest ih =>
    intro adv h
    unfold attrPhaseGo at h
    rcases hstep : attrCheckStep env mi a with e | s
    · simp only [hstep] at h
      cases h
    · simp only [hstep] at h
      rcases hrest : attrPhaseGo env mi rest with r | ⟨e, r⟩
      · simp only [hrest] at h
        cases h
        simp only [List.mem_append, not_or]
        exact ⟨attrCheckStep_no_final_step env mi a s hstep, ih r hrest⟩
      · simp only [hrest] at h
        cases h

/-- Helper: one constant-buffer variable scan never yields the
`no problems found` step. -/
theorem cbVarStep_no_final_step :
    ∀ (env : VertEnv) (v : ShaderVar) (l : List ResultStep),
      cbVarStep env v = Except.ok l →
      ResultStep.msgOnly Msg.noProblemsFound ∉ l := by
  intro env v l h
  unfold cbVarStep at h
  split at h
  · dsimp only at h
    split at h
    · split at h
      · cases h
      · split at h
        · cases h
          simp [ResultStep.withPipe, ResultStep.msgOnly]
        · cases h
    · cases h
      simp
  · cases h
    simp

/-- Helper: one block's variable loop never yields the
`no problems found` step. -/
theorem cbVarsGo_no_final_step :
    ∀ (env : VertEnv) (l : List ShaderVar) (adv : List ResultStep),
      cbVarsGo env l = PhaseRes.ok adv →
      ResultStep.msgOnly Msg.noProblemsFound ∉ adv := by
  intro env l
  induction l with
  | nil =>
    intro adv h
    cases h
    simp
  | cons v rest ih =>
    intro adv h
    unfold cbVarsGo at h
    rcases hstep : cbVarStep env v with e | s
    · simp only [hstep] at h
      cases h
    · simp only [hstep] at h
      rcases hrest : cbVarsGo env rest with r | ⟨e, r⟩
      · simp only [hrest] at h
        cases h
        simp only [List.mem_append, not_or]
        exact ⟨cbVarStep_no_final_step env v s hstep, ih r hrest⟩
      · simp only [hrest] at h
        cases h

/-- Helper: one bound constant block's scan never yields the
`no problems found` step. -/
theorem cbBlockStep_no_final_step :
    ∀ (env : VertEnv) (cb : BoundCB) (adv : List ResultStep),
      cbBlockStep env cb = PhaseRes.ok adv →
      ResultStep.msgOnly Msg.noProblemsFound ∉ adv := by
  intro env cb adv h
  unfold cbBlockStep at h
  split at h
  · split at h
    · exact cbVarsGo_no_final_step env _ adv h
    · cases h
      simp
  · cases h

/-- Helper: the constant-block loop's advisory list never contains the
`no problems found` step. -/
theorem cbPhaseGo_no_final_step :
    ∀ (env : VertEnv) (l : List BoundCB) (adv : List ResultStep),
      cbPhaseGo env l = PhaseRes.ok adv →
      ResultStep.msgOnly Msg.noProblemsFound ∉ adv := by
  intro env l
  induction l with
  | nil =>
    intro adv h
    cases h
    simp
  | cons cb rest ih =>
    intro adv h
    unfold cbPhaseGo at h
    rcases hstep : cbBlockStep env cb with s | ⟨e, s⟩
    · simp only [hstep] at h
      rcases hrest : cbPhaseGo env rest with r | ⟨e, r⟩
      · simp only [hrest] at h
        cases h
        simp only [List.mem_append, not_or]
        exact ⟨cbBlockStep_no_final_step env cb s hstep, ih r hrest⟩
      · simp only [hrest] at h
        cases h
    · simp only [hstep] at h
      cases h

/-- Helper: one position-attribute heuristic check never yields the
`no problems found` step. -/
theorem posAttrStep_no_final_step :
    ∀ (env : VertEnv) (mi : Option Int) (a : VertexInputAttr) (l : List ResultStep),
      posAttrStep env mi a = Except.ok l →
      ResultStep.msgOnly Msg.noProblemsFound ∉ l := by
  intro env mi a l h
  unfold posAttrStep at h
  split at h
  · cases h
    simp
  · split at h
    · cases h
      simp
    · split at h
      · cases h
        simp
      · split at h
        · cases h
          simp
        · split at h
          · cases h
            simp [ResultStep.withPipe, ResultStep.msgOnly]
          · split at h
            · cases h
            · split at h
              · cases h
              · split at h
                · split at h
                  · cases h
                    simp [ResultStep.withMesh, ResultStep.msgOnly]
                  · split at h
                    · cases h
                      simp [ResultStep.withMesh, ResultStep.msgOnly]
                    · cases h
                      simp
                · cases h
                  simp

/-- Helper: the position-attribute loop's advisory list never contains the
`no problems found` step. -/
theorem posPhaseGo_no_final_step :
    ∀ (env : VertEnv) (mi : Option Int) (l : List VertexInputAttr)
      (adv : List ResultStep),
      posPhaseGo env mi l = PhaseRes.ok adv →
      ResultStep.msgOnly Msg.noProblemsFound ∉ adv := by
  intro env mi l
  induction l with
  | nil =>
    intro adv h
    cases h
    simp
  | cons a rest ih =>
    intro adv h
    unfold posPhaseGo at h
    rcases hstep : posAttrStep env mi a with e | s
    · simp only [hstep] at h
      cases h
    · simp only [hstep] at h
      rcases hrest : posPhaseGo env mi rest with r | ⟨e, r⟩
      · simp only [hrest] at h
        cases h
        simp only [List.mem_append, not_or]
        exact ⟨posAttrStep_no_final_step env mi a s hstep, ih r hrest⟩
      · simp only [hrest] at h
        cases h

/-- C7 amended: the vertex input validation stage raises a terminal
conclusion exactly for its two guards — a missing vertex shader and an
indexed draw with no valid index buffer.  On every run that completes
without a Python error it otherwise only appends advisories and ends with
either the accumulated advisories or, when none were added, a single
`no problems found` step. -/
theorem C7_amended_guards_only :
    ∀ (env : VertEnv) (steps0 : List ResultStep),
      (∀ s, check_invalid_verts env steps0 = Outcome.finished s →
        s = steps0 ++ [ResultStep.withPipe Msg.noVertexShader PipelineStage.VertexShader] ∨
        s = steps0 ++ [ResultStep.withPipe Msg.noValidIndexBuffer PipelineStage.VertexInput]) ∧
      (∀ s, check_invalid_verts env steps0 = Outcome.proceed s →
        ∃ adv, s = steps0 ++ adv ∧ adv ≠ [] ∧
          (adv = [ResultStep.msgOnly Msg.noProblemsFound] ∨
           ResultStep.msgOnly Msg.noProblemsFound ∉ adv)) := by
  intro env steps0
  constructor
  · intro s h
    unfold check_invalid_verts at h
    split at h
    · cases h
      exact Or.inl rfl
    · split at h
      · cases h
        exact Or.inr rfl
      · split at h
        · cases h
        · split at h
          · cases h
          · split at h
            · cases h
            · split at h
              · cases h
              · dsimp only at h
                split at h <;> cases h
  · intro s h
    unfold check_invalid_verts at h
    split at h
    · cases h
    · split at h
      · cases h
      · rename_i adv1 indices hidx
        split at h
        · cases h
        · rename_i maxIdx hmax
          split at h
          · cases h
          · rename_i adv2 hattr
            split at h
            · cases h
            · rename_i adv3 hcb
              split at h
              · cases h
              · rename_i adv4 hpos
                dsimp only at h
                split at h
                · cases h
                  exact ⟨[ResultStep.msgOnly Msg.noProblemsFound], rfl, by simp,
                    Or.inl rfl⟩
                · rename_i hne
                  cases h
                  refine ⟨adv1 ++ adv2 ++ adv3 ++ adv4, rfl, ?_, Or.inr ?_⟩
                  · intro hnil
                    rw [hnil] at hne
                    exact hne rfl
                  · simp only [List.append_assoc, List.mem_append, not_or]
                    refine ⟨indexPhase_ok_no_final_step env adv1 indices hidx, ?_, ?_, ?_⟩
                    · exact attrPhaseGo_no_final_step env maxIdx env.vsinputs adv2 hattr
                    · exact cbPhaseGo_no_final_step env env.boundCBs adv3 hcb
                    · exact posPhaseGo_no_final_step env maxIdx env.vsinputs adv4 hpos

/-- C7 witness: the amended theorem at a concrete healthy environment,
with the `proceed` hypothesis discharged by evaluation — the stage ends
with the single `no problems found` step. -/
theorem C7_witness_no_problems_tail :
    ∃ adv, [ResultStep.msgOnly Msg.noProblemsFound] = [] ++ adv ∧ adv ≠ [] ∧
      (adv = [ResultStep.msgOnly Msg.noProblemsFound] ∨
       ResultStep.msgOnly Msg.noProblemsFound ∉ adv) :=
  (C7_amended_guards_only vertEnvClean []).2
    [ResultStep.msgOnly Msg.noProblemsFound] rfl
